import Mathlib

/-!
Shallow embedding of `src/services.py` of the openfga-operator repository:
the `WorkloadService` status reporter and the `PebbleService` layer
reconciler.  Python dicts over string keys are embedded as association
lists built by insertion (`pyDict`), `collections.ChainMap` lookup and
iteration are embedded explicitly (`chainGet`, `chainKeys`, `chainItems`),
and the Pebble layer dict is embedded as a Lean structure mirroring
`PEBBLE_LAYER_DICT`.  External collaborators (the Pebble container, the
Juju unit, the command-line helper) are embedded as explicit behaviour
records describing the outcome of each call the code makes.
-/

/-- An environment-variable mapping, as the items of a Python dict. -/
abbrev EnvList := List (String × String)

/-- Left-biased choice on options (Python's "first mapping that has the
key wins" and dict-construction override bookkeeping). -/
def firstSome (a b : Option String) : Option String :=
  match a with
  | some v => some v
  | none => b

@[simp] theorem firstSome_some (v : String) (b : Option String) :
    firstSome (some v) b = some v := rfl

@[simp] theorem firstSome_none (b : Option String) :
    firstSome none b = b := rfl

theorem firstSome_assoc (a b c : Option String) :
    firstSome (firstSome a b) c = firstSome a (firstSome b c) := by
  cases a <;> rfl

/-- First-match association lookup: Python `d[k]` / `d.get(k)` on a dict
represented by its item list (item lists built by `pyDict` have unique
keys, so first match is the dict's value). -/
def lookupKV (k : String) : EnvList → Option String
  | [] => none
  | (k', v) :: rest => if k' = k then some v else lookupKV k rest

/-- Python `d[k] = v` on a dict represented by its item list: replaces the
value in place when the key is present, otherwise appends the new item. -/
def dictInsert : EnvList → String → String → EnvList
  | [], k, v => [(k, v)]
  | (k', v') :: rest, k, v =>
      if k' = k then (k, v) :: rest else (k', v') :: dictInsert rest k v

/-- Building a Python dict from a sequence of items, later items winning:
`dict` construction and `{**a, **b, ...}` spreads. -/
def pyDict (items : EnvList) : EnvList :=
  items.foldl (fun d kv => dictInsert d kv.1 kv.2) []

/-- Lookup `ChainMap(*maps)[k]`: the first map in argument order that contains
`k` supplies the value. -/
def chainGet (maps : List EnvList) (k : String) : Option String :=
  maps.findSome? (fun m => lookupKV k m)

/-- Key insertion used by dict iteration-order bookkeeping: keep the key
where it is if already present, otherwise append it. -/
def keyInsert (ks : List String) (k : String) : List String :=
  if k ∈ ks then ks else ks ++ [k]

/-- Key effect of `d.update(dict.fromkeys(m))`. -/
def keysUpdate (ks : List String) (m : EnvList) : List String :=
  m.foldl (fun a kv => keyInsert a kv.1) ks

/-- Iteration order of `ChainMap(*maps)`: CPython builds a dict of the
keys of the maps in reversed order and iterates it. -/
def chainKeys (maps : List EnvList) : List String :=
  (maps.reverse).foldl keysUpdate []

/-- The items `ChainMap(*maps)` yields when spread with `**`: its keys in
iteration order, each paired with the chained lookup value. -/
def chainItems (maps : List EnvList) : EnvList :=
  (chainKeys maps).map (fun k => (k, (chainGet maps k).getD ""))

/-- The environment computed by `render_pebble_layer`:
`{**DEFAULT_CONTAINER_ENV, **ChainMap(*(source.to_env_vars() ...))}`.
`DEFAULT_CONTAINER_ENV` lives in `env_vars.py` (not in src/), so the
default map is an explicit parameter; each source stands for the dict
returned by that source's `to_env_vars()`. -/
def effectiveEnv (default_env : EnvList) (sources : List EnvList) : EnvList :=
  pyDict (default_env ++ chainItems sources)

/-- The value the last item of `items` with key `k` contributes, if any:
the override semantics of dict construction from an item sequence. -/
def lastAssoc (k : String) : EnvList → Option String
  | [] => none
  | (k', v) :: rest =>
      firstSome (lastAssoc k rest) (if k' = k then some v else none)

theorem lookupKV_dictInsert (d : EnvList) (k k' v : String) :
    lookupKV k (dictInsert d k' v) =
      if k' = k then some v else lookupKV k d := by
  induction d with
  | nil => simp [dictInsert, lookupKV]
  | cons hd tl ih =>
    obtain ⟨a, b⟩ := hd
    simp only [dictInsert]
    by_cases hak : a = k'
    · subst hak
      by_cases h : a = k <;> simp [lookupKV, h]
    · simp only [if_neg hak, lookupKV, ih]
      by_cases h1 : a = k
      · subst h1
        have h2 : ¬ a = k' := hak
        simp [if_pos rfl, if_neg (fun hh : k' = a => h2 hh.symm)]
      · by_cases h2 : k' = k <;> simp [h1, h2]

theorem lookupKV_foldl_dictInsert (items : EnvList) (d : EnvList) (k : String) :
    lookupKV k (items.foldl (fun d kv => dictInsert d kv.1 kv.2) d) =
      firstSome (lastAssoc k items) (lookupKV k d) := by
  induction items generalizing d with
  | nil => simp [lastAssoc]
  | cons hd tl ih =>
    obtain ⟨a, b⟩ := hd
    simp only [List.foldl_cons, lastAssoc]
    rw [ih, lookupKV_dictInsert]
    cases lastAssoc k tl with
    | some v => simp
    | none =>
      by_cases h : a = k <;> simp [h]

theorem lookupKV_pyDict (items : EnvList) (k : String) :
    lookupKV k (pyDict items) = lastAssoc k items := by
  rw [pyDict, lookupKV_foldl_dictInsert]
  cases lastAssoc k items <;> simp [lookupKV]

theorem lastAssoc_map_keys (ks : List String) (f : String → String) (k : String) :
    lastAssoc k (ks.map (fun k' => (k', f k'))) =
      if k ∈ ks then some (f k) else none := by
  induction ks with
  | nil => simp [lastAssoc]
  | cons a rest ih =>
    simp only [List.map_cons, lastAssoc, ih]
    by_cases hmem : k ∈ rest
    · simp [hmem, List.mem_cons]
    · by_cases hak : a = k
      · subst hak
        simp [hmem, List.mem_cons]
      · have hka : ¬ k = a := fun hh => hak hh.symm
        simp [hmem, hak, hka, List.mem_cons]

theorem mem_keyInsert (ks : List String) (k a : String) :
    a ∈ keyInsert ks k ↔ a ∈ ks ∨ a = k := by
  unfold keyInsert
  split
  · rename_i h
    constructor
    · exact Or.inl
    · rintro (ha | rfl)
      · exact ha
      · exact h
  · simp [List.mem_append]

theorem mem_keysUpdate (m : EnvList) (ks : List String) (a : String) :
    a ∈ keysUpdate ks m ↔ a ∈ ks ∨ a ∈ m.map Prod.fst := by
  induction m generalizing ks with
  | nil => simp [keysUpdate]
  | cons hd tl ih =>
    show a ∈ keysUpdate (keyInsert ks hd.1) tl ↔ _
    rw [ih, mem_keyInsert]
    simp [List.mem_cons, or_assoc, or_comm, or_left_comm]

theorem mem_foldl_keysUpdate (l : List EnvList) (ks : List String) (a : String) :
    a ∈ l.foldl keysUpdate ks ↔ a ∈ ks ∨ ∃ m ∈ l, a ∈ m.map Prod.fst := by
  induction l generalizing ks with
  | nil => simp
  | cons hd tl ih =>
    simp only [List.foldl_cons]
    rw [ih, mem_keysUpdate]
    simp [or_assoc]

theorem mem_chainKeys (maps : List EnvList) (a : String) :
    a ∈ chainKeys maps ↔ ∃ m ∈ maps, a ∈ m.map Prod.fst := by
  unfold chainKeys
  rw [mem_foldl_keysUpdate]
  simp [List.mem_reverse]

theorem lookupKV_isSome (m : EnvList) (k : String) :
    (lookupKV k m).isSome ↔ k ∈ m.map Prod.fst := by
  induction m with
  | nil => simp [lookupKV]
  | cons hd tl ih =>
    obtain ⟨a, b⟩ := hd
    by_cases h : a = k
    · subst h
      simp [lookupKV]
    · have h' : ¬ k = a := fun hh => h hh.symm
      simp [lookupKV, h, ih, List.mem_cons, h']

theorem chainGet_isSome (maps : List EnvList) (k : String) :
    (chainGet maps k).isSome ↔ ∃ m ∈ maps, k ∈ m.map Prod.fst := by
  unfold chainGet
  induction maps with
  | nil => simp
  | cons hd tl ih =>
    simp only [List.findSome?_cons]
    cases hh : lookupKV k hd with
    | some v =>
      have hmem : k ∈ hd.map Prod.fst := by
        rw [← lookupKV_isSome, hh]
        rfl
      constructor
      · intro _
        exact ⟨hd, List.mem_cons_self hd tl, hmem⟩
      · intro _
        rfl
    | none =>
      have hmem : ¬ k ∈ hd.map Prod.fst := by
        rw [← lookupKV_isSome, hh]
        simp
      rw [ih]
      constructor
      · rintro ⟨m, hm, hk⟩
        exact ⟨m, List.mem_cons_of_mem _ hm, hk⟩
      · rintro ⟨m, hm, hk⟩
        rcases List.mem_cons.mp hm with rfl | hm'
        · exact absurd hk hmem
        · exact ⟨m, hm', hk⟩

theorem lastAssoc_chainItems (maps : List EnvList) (k : String) :
    lastAssoc k (chainItems maps) = chainGet maps k := by
  unfold chainItems
  rw [lastAssoc_map_keys]
  by_cases h : k ∈ chainKeys maps
  · have hs : (chainGet maps k).isSome := by
      rw [chainGet_isSome]
      exact (mem_chainKeys maps k).mp h
    cases hg : chainGet maps k with
    | none => rw [hg] at hs; simp at hs
    | some v => simp [h, hg]
  · have hs : ¬ (chainGet maps k).isSome := by
      rw [chainGet_isSome]
      exact fun hh => h ((mem_chainKeys maps k).mpr hh)
    cases hg : chainGet maps k with
    | none => simp [h]
    | some v => rw [hg] at hs; simp at hs

theorem lastAssoc_append (xs ys : EnvList) (k : String) :
    lastAssoc k (xs ++ ys) = firstSome (lastAssoc k ys) (lastAssoc k xs) := by
  induction xs with
  | nil =>
    show lastAssoc k ys = firstSome (lastAssoc k ys) (lastAssoc k [])
    cases h : lastAssoc k ys <;> simp [h, lastAssoc]
  | cons hd tl ih =>
    obtain ⟨a, b⟩ := hd
    simp only [List.cons_append, lastAssoc, List.append_eq]
    rw [ih, firstSome_assoc]

/-- The lookup characterisation of the merged environment: a key supplied
by some source takes the value of the earliest source containing it, and
otherwise falls back to the default map. -/
theorem lookupKV_effectiveEnv (default_env : EnvList) (sources : List EnvList)
    (k : String) :
    lookupKV k (effectiveEnv default_env sources) =
      firstSome (chainGet sources k) (lastAssoc k default_env) := by
  unfold effectiveEnv
  rw [lookupKV_pyDict, lastAssoc_append, lastAssoc_chainItems]

/-- Modelled from the spec: `constants.py` is not in src/; the spec fixes
three well-known TCP ports (HTTP API, gRPC API, metrics).  The claims do
not depend on the numeric values. -/
def OPENFGA_SERVER_HTTP_PORT : Nat := 8080

/-- Modelled from the spec: `constants.py` is not in src/ (gRPC API port). -/
def OPENFGA_SERVER_GRPC_PORT : Nat := 8081

/-- Modelled from the spec: `constants.py` is not in src/ (metrics port). -/
def OPENFGA_METRICS_HTTP_PORT : Nat := 2112

/-- Modelled from the spec: `constants.py` is not in src/; the CA bundle
path added to the gRPC probe when TLS is enabled.  The claims do not
depend on the value. -/
def CA_BUNDLE_FILE : String := "/etc/ssl/certs/ca-certificates.crt"

/-- The `http-check` entry of `PEBBLE_LAYER_DICT`. -/
structure HttpCheck where
  override : String
  period : String
  http_url : String
deriving DecidableEq, Repr

/-- The `grpc-check` entry of `PEBBLE_LAYER_DICT`. -/
structure GrpcCheck where
  override : String
  period : String
  level : String
  exec_command : String
deriving DecidableEq, Repr

/-- The single service entry of `PEBBLE_LAYER_DICT` (key
`WORKLOAD_SERVICE`).  `environment` is absent from the static template
and only written by `render_pebble_layer`. -/
structure ServiceEntry where
  override : String
  summary : String
  command : String
  startup : String
  environment : Option EnvList
deriving DecidableEq, Repr

/-- The layer dict held in `PebbleService._layer_dict`. -/
structure PebbleLayerDict where
  summary : String
  description : String
  service : ServiceEntry
  http_check : HttpCheck
  grpc_check : GrpcCheck
deriving DecidableEq, Repr

/-- The static `PEBBLE_LAYER_DICT` template from `services.py`. -/
def PEBBLE_LAYER_DICT : PebbleLayerDict :=
  { summary := "pebble layer"
    description := "pebble layer for openfga"
    service :=
      { override := "merge"
        summary := "entrypoint of the openfga image"
        command := "openfga run"
        startup := "disabled"
        environment := none }
    http_check :=
      { override := "replace"
        period := "1m"
        http_url :=
          "http://127.0.0.1:" ++ toString OPENFGA_SERVER_HTTP_PORT ++ "/healthz" }
    grpc_check :=
      { override := "replace"
        period := "1m"
        level := "alive"
        exec_command :=
          "grpc_health_probe -addr 127.0.0.1:" ++
            toString OPENFGA_SERVER_GRPC_PORT } }

/-- The secured HTTP check URL written when `OPENFGA_HTTP_TLS_ENABLED`
is `"true"`. -/
def securedHttpUrl : String :=
  "https://127.0.0.1:" ++ toString OPENFGA_SERVER_HTTP_PORT ++ "/healthz"

/-- The secured gRPC probe command written when `OPENFGA_GRPC_TLS_ENABLED`
is `"true"`. -/
def securedGrpcCommand : String :=
  "grpc_health_probe -addr 127.0.0.1:" ++ toString OPENFGA_SERVER_GRPC_PORT ++
    " -tls -tls-ca-cert " ++ CA_BUNDLE_FILE

/-- Embedding of `PebbleService.render_pebble_layer`, as a transformation of the stored
(mutable, reused) `_layer_dict`.  The returned `Layer` is built from the
dict after mutation, so the returned specification and the new stored
template coincide.  `default_env` stands for `DEFAULT_CONTAINER_ENV`
(imported from `env_vars.py`, not in src/); each element of `sources`
stands for one `source.to_env_vars()` dict, in argument order. -/
def render_pebble_layer (st : PebbleLayerDict) (default_env : EnvList)
    (sources : List EnvList) : PebbleLayerDict :=
  let env_vars := effectiveEnv default_env sources
  let st1 :=
    { st with service := { st.service with environment := some env_vars } }
  let st2 :=
    if lookupKV "OPENFGA_HTTP_TLS_ENABLED" env_vars = some "true" then
      { st1 with http_check := { st1.http_check with http_url := securedHttpUrl } }
    else st1
  if lookupKV "OPENFGA_GRPC_TLS_ENABLED" env_vars = some "true" then
    { st2 with
        grpc_check := { st2.grpc_check with exec_command := securedGrpcCommand } }
  else st2

/-- Python exception values observed by the embedded code.  `modelError`
is `ops.ModelError` (raised by `get_service` when the service is absent);
`pebbleServiceError` is the repository's `PebbleServiceError`
(`ReconcileError` in the spec), carrying the exception it wraps;
`otherExc` is any other exception a collaborator raises. -/
inductive PyExc where
  | modelError (msg : String)
  | pebbleServiceError (cause : PyExc)
  | otherExc (msg : String)
deriving DecidableEq, Repr

/-- Whether an exception is the repository's `PebbleServiceError`
(`ReconcileError`). -/
def isReconcileError : PyExc → Bool
  | .pebbleServiceError _ => true
  | _ => false

/-- The Pebble transition primitives the reconciler can invoke on the
container. -/
inductive Transition where
  | restart
  | start
  | replan
deriving DecidableEq, Repr

/-- Decidable equality for collaborator call outcomes. -/
instance exceptDecEq {ε α : Type} [DecidableEq ε] [DecidableEq α] :
    DecidableEq (Except ε α) := fun a b =>
  match a, b with
  | .ok x, .ok y =>
    if h : x = y then .isTrue (by rw [h]) else
      .isFalse (fun hh => by cases hh; exact h rfl)
  | .error x, .error y =>
    if h : x = y then .isTrue (by rw [h]) else
      .isFalse (fun hh => by cases hh; exact h rfl)
  | .ok _, .error _ => .isFalse (fun hh => by cases hh)
  | .error _, .ok _ => .isFalse (fun hh => by cases hh)

/-- Outcomes of the container (Pebble supervisor) calls made during one
reconciliation: `get_service` either returns a handle whose
`is_running()` is the given Bool or raises; each transition primitive and
`add_layer` either returns or raises. -/
structure ContainerBehavior where
  getService : Except PyExc Bool
  addLayerResult : Except PyExc Unit
  startResult : Except PyExc Unit
  restartResult : Except PyExc Unit
  replanResult : Except PyExc Unit
deriving DecidableEq, Repr

/-- Embedding of `WorkloadService.is_running`: `get_service` wrapped in
`try ... except ModelError: return False`; only `ModelError` is caught. -/
def is_runningImpl (c : ContainerBehavior) : Except PyExc Bool :=
  match c.getService with
  | .error (.modelError _) => .ok false
  | .error e => .error e
  | .ok b => .ok b

/-- Embedding of `PebbleService._restart_service`: the trace of transition primitives
invoked (at most one) and the call's outcome. -/
def restartServiceRun (c : ContainerBehavior) (restart : Bool) :
    List Transition × Except PyExc Unit :=
  if restart then
    ([.restart], c.restartResult)
  else
    match c.getService with
    | .error e => ([], .error e)
    | .ok running =>
      if ¬ running then
        ([.start], c.startResult)
      else
        ([.replan], c.replanResult)

/-- Embedding of `PebbleService.plan`: `add_layer` (outside the `try` block), then
`_restart_service()` with its default `restart=False`, any exception of
which is re-raised as `PebbleServiceError` wrapping the cause. -/
def planRun (c : ContainerBehavior) : List Transition × Except PyExc Unit :=
  match c.addLayerResult with
  | .error e => ([], .error e)
  | .ok _ =>
    let r := restartServiceRun c false
    match r.2 with
    | .ok _ => (r.1, .ok ())
    | .error e => (r.1, .error (.pebbleServiceError e))

/-- Embedding of the `WorkloadService.version` setter: no-op on the empty string; publishes
via `Unit.set_workload_version`, and on any exception logs and returns
early, leaving the stored `_version` unchanged; only on successful
publication is `_version` assigned.  Returns the new `_version` given the
old one.  Total (no `Except` in the result): every publication exception
is swallowed. -/
def setVersionImpl (stored : String) (publish : Except PyExc Unit)
    (v : String) : String :=
  if v = "" then stored
  else
    match publish with
    | .error _ => stored
    | .ok _ => v

/-- Embedding of the `WorkloadService.version` getter:
`self._version = self._cli.get_openfga_service_version() or ""`.
`cliResult` is the helper's `string | none` result; Python's `or ""`
maps both `None` and `""` to `""`.  Returns (returned value, new stored
`_version`). -/
def versionGetImpl (_stored : String) (cliResult : Option String) :
    String × String :=
  let v := cliResult.getD ""
  (v, v)

theorem render_pebble_layer_service (st : PebbleLayerDict) (d : EnvList)
    (s : List EnvList) :
    (render_pebble_layer st d s).service =
      { st.service with environment := some (effectiveEnv d s) } := by
  by_cases h1 : lookupKV "OPENFGA_HTTP_TLS_ENABLED" (effectiveEnv d s) = some "true" <;>
  by_cases h2 : lookupKV "OPENFGA_GRPC_TLS_ENABLED" (effectiveEnv d s) = some "true" <;>
  simp [render_pebble_layer, h1, h2]

theorem render_pebble_layer_http (st : PebbleLayerDict) (d : EnvList)
    (s : List EnvList) :
    (render_pebble_layer st d s).http_check =
      if lookupKV "OPENFGA_HTTP_TLS_ENABLED" (effectiveEnv d s) = some "true" then
        { st.http_check with http_url := securedHttpUrl }
      else st.http_check := by
  by_cases h1 : lookupKV "OPENFGA_HTTP_TLS_ENABLED" (effectiveEnv d s) = some "true" <;>
  by_cases h2 : lookupKV "OPENFGA_GRPC_TLS_ENABLED" (effectiveEnv d s) = some "true" <;>
  simp [render_pebble_layer, h1, h2]

theorem render_pebble_layer_grpc (st : PebbleLayerDict) (d : EnvList)
    (s : List EnvList) :
    (render_pebble_layer st d s).grpc_check =
      if lookupKV "OPENFGA_GRPC_TLS_ENABLED" (effectiveEnv d s) = some "true" then
        { st.grpc_check with exec_command := securedGrpcCommand }
      else st.grpc_check := by
  by_cases h1 : lookupKV "OPENFGA_HTTP_TLS_ENABLED" (effectiveEnv d s) = some "true" <;>
  by_cases h2 : lookupKV "OPENFGA_GRPC_TLS_ENABLED" (effectiveEnv d s) = some "true" <;>
  simp [render_pebble_layer, h1, h2]

/-- C1: the rendered specification's environment is exactly the default
map overridden by the chained sources: a key held by some source takes
the value of the earliest source holding it (so the earliest source wins
a collision and every source-supplied key overrides the default), and a
key held by no source keeps the default map's value. -/
theorem render_env_first_source_wins (st : PebbleLayerDict)
    (default_env : EnvList) (sources : List EnvList) :
    (render_pebble_layer st default_env sources).service.environment =
      some (effectiveEnv default_env sources)
    ∧ ∀ k, lookupKV k (effectiveEnv default_env sources) =
        firstSome (chainGet sources k) (lastAssoc k default_env) := by
  constructor
  · rw [render_pebble_layer_service]
  · intro k
    exact lookupKV_effectiveEnv default_env sources k

/-- C3: the transition selection of `_restart_service` is an ordered
decision: `restart=true` always issues `restart` regardless of run state;
otherwise a present, not-running service gets `start` and a present,
running service gets `replan`. -/
theorem restart_service_selection (c : ContainerBehavior) :
    (restartServiceRun c true).1 = [Transition.restart]
    ∧ (c.getService = .ok false →
        (restartServiceRun c false).1 = [Transition.start])
    ∧ (c.getService = .ok true →
        (restartServiceRun c false).1 = [Transition.replan]) := by
  refine ⟨rfl, fun h => ?_, fun h => ?_⟩ <;> simp [restartServiceRun, h]

/-- Witness for C3 at a concrete container behaviour. -/
theorem restart_service_selection_witness :
    (restartServiceRun
      { getService := .ok false, addLayerResult := .ok ()
        startResult := .ok (), restartResult := .ok ()
        replanResult := .ok () } true).1 = [Transition.restart]
    ∧ (restartServiceRun
      { getService := .ok false, addLayerResult := .ok ()
        startResult := .ok (), restartResult := .ok ()
        replanResult := .ok () } false).1 = [Transition.start]
    ∧ (restartServiceRun
      { getService := .ok true, addLayerResult := .ok ()
        startResult := .ok (), restartResult := .ok ()
        replanResult := .ok () } false).1 = [Transition.replan] :=
  ⟨(restart_service_selection _).1,
   (restart_service_selection _).2.1 rfl,
   (restart_service_selection _).2.2 rfl⟩

/-- C8: `is_running` returns `false` without raising whenever
`get_service` raises `ModelError` (service absent), and returns the
reported run state when the service is present. -/
theorem is_running_absent_false (c : ContainerBehavior) :
    (∀ m, c.getService = .error (.modelError m) →
        is_runningImpl c = .ok false)
    ∧ (∀ b, c.getService = .ok b → is_runningImpl c = .ok b) := by
  constructor <;> intro x h <;> simp [is_runningImpl, h]

/-- Witness for C8 at concrete container behaviours. -/
theorem is_running_absent_false_witness :
    is_runningImpl
      { getService := .error (.modelError "service not found")
        addLayerResult := .ok (), startResult := .ok ()
        restartResult := .ok (), replanResult := .ok () } = .ok false
    ∧ is_runningImpl
      { getService := .ok true, addLayerResult := .ok ()
        startResult := .ok (), restartResult := .ok ()
        replanResult := .ok () } = .ok true :=
  ⟨(is_running_absent_false _).1 "service not found" rfl,
   (is_running_absent_false _).2 true rfl⟩

/-- C9: every read of the `version` property overwrites the stored
in-memory version with the fresh helper result, coercing an unavailable
(`none`) result to `""`; in particular a failed query resets the stored
version to `""` regardless of the previously stored non-empty value. -/
theorem version_get_overwrites (stored : String) (r : Option String) :
    versionGetImpl stored r = (r.getD "", r.getD "")
    ∧ versionGetImpl stored none = ("", "") :=
  ⟨rfl, rfl⟩

/-- C10: `plan` calls `_restart_service` with its default
`restart=False`, so no invocation of `plan` ever issues a restart; when
the layer submission succeeds and the service is running, the issued
transition is exactly `replan`. -/
theorem plan_never_restarts (c : ContainerBehavior) :
    Transition.restart ∉ (planRun c).1
    ∧ (c.addLayerResult = .ok () → c.getService = .ok true →
        (planRun c).1 = [Transition.replan]) := by
  constructor
  · unfold planRun restartServiceRun
    cases c.addLayerResult with
    | error e => simp
    | ok _ =>
      cases c.getService with
      | error e => simp
      | ok running =>
        cases running with
        | false => cases c.startResult <;> simp
        | true => cases c.replanResult <;> simp
  · intro hA hG
    unfold planRun restartServiceRun
    rw [hA, hG]
    cases c.replanResult <;> simp

/-- Witness for C10 at a concrete container behaviour. -/
theorem plan_never_restarts_witness :
    Transition.restart ∉
      (planRun
        { getService := .ok true, addLayerResult := .ok ()
          startResult := .ok (), restartResult := .ok ()
          replanResult := .ok () }).1
    ∧ (planRun
        { getService := .ok true, addLayerResult := .ok ()
          startResult := .ok (), restartResult := .ok ()
          replanResult := .ok () }).1 = [Transition.replan] :=
  ⟨(plan_never_restarts _).1, (plan_never_restarts _).2 rfl rfl⟩

/-- C2 counterexample: with a supervisor that rejects the layer
submission, `plan` propagates the supervisor's own exception unwrapped —
not a `PebbleServiceError` — because `add_layer` sits outside the `try`
block. -/
theorem plan_addLayer_error_unwrapped :
    (planRun
      { getService := .ok true
        addLayerResult := .error (.otherExc "layer rejected")
        startResult := .ok (), restartResult := .ok ()
        replanResult := .ok () }).2 = .error (.otherExc "layer rejected")
    ∧ isReconcileError (PyExc.otherExc "layer rejected") = false :=
  ⟨rfl, rfl⟩

/-- C2 amended: an exception during the start/restart/replan transition
(including fetching the service handle) surfaces as exactly one
`PebbleServiceError` wrapping the cause, while an exception during the
layer submission propagates unchanged and unwrapped. -/
theorem plan_wraps_transition_errors (c : ContainerBehavior) :
    (∀ e, c.addLayerResult = .error e → (planRun c).2 = .error e)
    ∧ (∀ e, c.addLayerResult = .ok () →
        (restartServiceRun c false).2 = .error e →
        (planRun c).2 = .error (.pebbleServiceError e)) := by
  constructor
  · intro e h
    simp [planRun, h]
  · intro e hA hT
    simp [planRun, hA, hT]

/-- Witness for the amended C2 at concrete container behaviours. -/
theorem plan_wraps_transition_errors_witness :
    (planRun
      { getService := .ok true, addLayerResult := .error (.otherExc "boom")
        startResult := .ok (), restartResult := .ok ()
        replanResult := .ok () }).2 = .error (.otherExc "boom")
    ∧ (planRun
      { getService := .ok true, addLayerResult := .ok ()
        startResult := .ok (), restartResult := .ok ()
        replanResult := .error (.otherExc "replan failed") }).2 =
      .error (.pebbleServiceError (.otherExc "replan failed")) :=
  ⟨(plan_wraps_transition_errors _).1 (.otherExc "boom") rfl,
   (plan_wraps_transition_errors _).2 (.otherExc "replan failed") rfl (by decide)⟩

/-- C4 counterexample: with a stored version `"0.9.0"`, a failing ledger
publication and the new version `"1.2.3"`, the setter leaves the stored
in-memory version at `"0.9.0"` (the code returns before the assignment),
so it is not updated to `"1.2.3"` as the claim states. -/
theorem set_version_failure_keeps_old :
    setVersionImpl "0.9.0" (.error (.otherExc "ledger unavailable")) "1.2.3" =
      "0.9.0"
    ∧ setVersionImpl "0.9.0" (.error (.otherExc "ledger unavailable")) "1.2.3" ≠
      "1.2.3" := by
  constructor
  · rfl
  · decide

/-- C4 amended: for a non-empty `v`, a publication failure is swallowed
(the setter is total and raises nothing) but leaves the stored in-memory
version unchanged; the stored version is updated to `v` exactly when
publication succeeds. -/
theorem set_version_update_iff_publish (stored v : String) (e : PyExc)
    (h : v ≠ "") :
    setVersionImpl stored (.error e) v = stored
    ∧ setVersionImpl stored (.ok ()) v = v := by
  constructor <;> simp [setVersionImpl, h]

/-- Witness for the amended C4 at concrete inputs. -/
theorem set_version_update_iff_publish_witness :
    setVersionImpl "0.9.0" (.error (.otherExc "ledger down")) "1.2.3" = "0.9.0"
    ∧ setVersionImpl "0.9.0" (.ok ()) "1.2.3" = "1.2.3" :=
  set_version_update_iff_publish "0.9.0" "1.2.3" (.otherExc "ledger down")
    (by decide)

/-- C5: the HTTP TLS flag equal to `"true"` rewrites exactly the HTTP
check's URL to the secured variant and any other value leaves it alone;
the gRPC TLS flag equal to `"true"` rewrites exactly the gRPC probe
command (TLS flags and CA bundle) and any other value leaves it alone;
each flag never touches the other check. -/
theorem render_tls_frame (st : PebbleLayerDict) (d : EnvList)
    (s : List EnvList) :
    (lookupKV "OPENFGA_HTTP_TLS_ENABLED" (effectiveEnv d s) = some "true" →
        (render_pebble_layer st d s).http_check =
          { st.http_check with http_url := securedHttpUrl })
    ∧ (lookupKV "OPENFGA_HTTP_TLS_ENABLED" (effectiveEnv d s) ≠ some "true" →
        (render_pebble_layer st d s).http_check = st.http_check)
    ∧ (lookupKV "OPENFGA_GRPC_TLS_ENABLED" (effectiveEnv d s) = some "true" →
        (render_pebble_layer st d s).grpc_check =
          { st.grpc_check with exec_command := securedGrpcCommand })
    ∧ (lookupKV "OPENFGA_GRPC_TLS_ENABLED" (effectiveEnv d s) ≠ some "true" →
        (render_pebble_layer st d s).grpc_check = st.grpc_check) := by
  refine ⟨fun h => ?_, fun h => ?_, fun h => ?_, fun h => ?_⟩
  · rw [render_pebble_layer_http, if_pos h]
  · rw [render_pebble_layer_http, if_neg h]
  · rw [render_pebble_layer_grpc, if_pos h]
  · rw [render_pebble_layer_grpc, if_neg h]

/-- Witness for C5: one source enabling HTTP TLS only rewrites the HTTP
check and leaves the gRPC check untouched. -/
theorem render_tls_frame_witness :
    (render_pebble_layer PEBBLE_LAYER_DICT []
        [[("OPENFGA_HTTP_TLS_ENABLED", "true")]]).http_check =
      { PEBBLE_LAYER_DICT.http_check with http_url := securedHttpUrl }
    ∧ (render_pebble_layer PEBBLE_LAYER_DICT []
        [[("OPENFGA_HTTP_TLS_ENABLED", "true")]]).grpc_check =
      PEBBLE_LAYER_DICT.grpc_check :=
  ⟨(render_tls_frame _ _ _).1 (by decide),
   (render_tls_frame _ _ _).2.2.2 (by decide)⟩

/-- The two TLS toggles recognised during rendering. -/
inductive TlsFlag where
  | http
  | grpc
deriving DecidableEq, Repr

/-- The environment variable a TLS toggle is read from. -/
def tlsFlagVar : TlsFlag → String
  | .http => "OPENFGA_HTTP_TLS_ENABLED"
  | .grpc => "OPENFGA_GRPC_TLS_ENABLED"

/-- The corresponding check of the stored template is in its secured
(rewritten) variant. -/
def checkSecured (st : PebbleLayerDict) : TlsFlag → Prop
  | .http => st.http_check.http_url = securedHttpUrl
  | .grpc => st.grpc_check.exec_command = securedGrpcCommand

instance (st : PebbleLayerDict) (f : TlsFlag) : Decidable (checkSecured st f) := by
  cases f <;> dsimp [checkSecured] <;> infer_instance

/-- C6: once a render whose effective environment sets a TLS flag to
`"true"` has secured the corresponding check, a subsequent render on the
same reused template whose effective environment no longer sets the flag
still returns that check in its secured variant. -/
theorem render_no_reversion (f : TlsFlag) (st : PebbleLayerDict)
    (d1 : EnvList) (s1 : List EnvList) (d2 : EnvList) (s2 : List EnvList)
    (h1 : lookupKV (tlsFlagVar f) (effectiveEnv d1 s1) = some "true")
    (h2 : lookupKV (tlsFlagVar f) (effectiveEnv d2 s2) ≠ some "true") :
    checkSecured (render_pebble_layer (render_pebble_layer st d1 s1) d2 s2) f := by
  cases f
  · simp only [tlsFlagVar] at h1 h2
    show (render_pebble_layer (render_pebble_layer st d1 s1) d2 s2).http_check.http_url = securedHttpUrl
    rw [render_pebble_layer_http, if_neg h2, render_pebble_layer_http, if_pos h1]
  · simp only [tlsFlagVar] at h1 h2
    show (render_pebble_layer (render_pebble_layer st d1 s1) d2 s2).grpc_check.exec_command = securedGrpcCommand
    rw [render_pebble_layer_grpc, if_neg h2, render_pebble_layer_grpc, if_pos h1]

/-- Witness for C6: enable HTTP TLS, then render again with no sources. -/
theorem render_no_reversion_witness :
    checkSecured
      (render_pebble_layer
        (render_pebble_layer PEBBLE_LAYER_DICT []
          [[("OPENFGA_HTTP_TLS_ENABLED", "true")]]) [] [])
      TlsFlag.http :=
  render_no_reversion TlsFlag.http PEBBLE_LAYER_DICT _ _ _ _
    (by decide) (by decide)

theorem pebbleLayerDict_eq (a b : PebbleLayerDict)
    (h1 : a.summary = b.summary) (h2 : a.description = b.description)
    (h3 : a.service = b.service) (h4 : a.http_check = b.http_check)
    (h5 : a.grpc_check = b.grpc_check) : a = b := by
  cases a
  cases b
  cases h1
  cases h2
  cases h3
  cases h4
  cases h5
  rfl

theorem render_pebble_layer_summary (st : PebbleLayerDict) (d : EnvList)
    (s : List EnvList) :
    (render_pebble_layer st d s).summary = st.summary := by
  by_cases h1 : lookupKV "OPENFGA_HTTP_TLS_ENABLED" (effectiveEnv d s) = some "true" <;>
  by_cases h2 : lookupKV "OPENFGA_GRPC_TLS_ENABLED" (effectiveEnv d s) = some "true" <;>
  simp [render_pebble_layer, h1, h2]

theorem render_pebble_layer_description (st : PebbleLayerDict) (d : EnvList)
    (s : List EnvList) :
    (render_pebble_layer st d s).description = st.description := by
  by_cases h1 : lookupKV "OPENFGA_HTTP_TLS_ENABLED" (effectiveEnv d s) = some "true" <;>
  by_cases h2 : lookupKV "OPENFGA_GRPC_TLS_ENABLED" (effectiveEnv d s) = some "true" <;>
  simp [render_pebble_layer, h1, h2]

/-- C7: rendering twice in immediate succession with identical inputs
yields identical specifications — the second returned specification
equals the first, even though the second call starts from the template
the first call mutated. -/
theorem render_idempotent (st : PebbleLayerDict) (d : EnvList)
    (s : List EnvList) :
    render_pebble_layer (render_pebble_layer st d s) d s =
      render_pebble_layer st d s := by
  apply pebbleLayerDict_eq
  · rw [render_pebble_layer_summary, render_pebble_layer_summary]
  · rw [render_pebble_layer_description, render_pebble_layer_description]
  · simp only [render_pebble_layer_service]
  · simp only [render_pebble_layer_http]
    by_cases h : lookupKV "OPENFGA_HTTP_TLS_ENABLED" (effectiveEnv d s) = some "true" <;>
      simp [h]
  · simp only [render_pebble_layer_grpc]
    by_cases h : lookupKV "OPENFGA_GRPC_TLS_ENABLED" (effectiveEnv d s) = some "true" <;>
      simp [h]
